import Mathlib

/-!
Shallow embedding of `src/verify_player.py`, a linear Playwright smoke-test
script.  The script's control flow is deterministic given the outcomes of the
fallible browser-automation calls, so we model a run as a pure function from
an environment (which records, for each fallible call, whether it succeeds or
raises, and which Boolean the visibility query returns) to a trace of emitted
operations together with a final outcome.

Modelling granularity (stated once here):
* Fallible operations: each `page.goto` attempt (per attempt index), `page.fill`,
  `page.click`, `page.wait_for_selector`, `page.screenshot`.  A Python exception
  raised by one of these is modelled by `some e : Option ExcKind`; the kind `e`
  is opaque data standing for the concrete exception object.
* Infallible operations: `launch`, `new_context`, `new_page`, `print`,
  `time.sleep`, `mouse.move`, the `locator(...).is_visible()` query (modelled as
  a single event returning `Env.controlsVisible`), and `browser.close`.
* A call that is invoked is recorded in the trace (with its literal arguments)
  even when it raises; nothing after a raising call is recorded, matching
  Python exception propagation (the script has a single `try/except` around
  `page.goto` and no other handler, and no `finally`).
-/

namespace VerifyPlayer

/-- Opaque stand-in for a Python exception object raised by a Playwright call. -/
inductive ExcKind where
  | connectionRefused
  | timeout
  | other (msg : String)
deriving DecidableEq

/-- One browser-automation / script operation, with the literal arguments the
script passes at the call site. -/
inductive Event where
  | launch (headless : Bool)
  | newContext (w h : Nat)
  | newPage
  | print (s : String)
  | goto (url : String) (timeoutMs : Nat)
  | sleep (secs : Nat)
  | fill (selector url : String)
  | click (selector : String)
  | waitForSelector (selector : String) (timeoutMs : Nat)
  | mouseMove (x y : Nat)
  | isVisible (selector : String)
  | screenshot (path : String)
  | close
deriving DecidableEq

/-- Final outcome of a run: normal termination, the script's own
`raise Exception(...)`, or an uncaught exception from an automation call. -/
inductive Outcome where
  | normal
  | raised (msg : String)
  | uncaught (e : ExcKind)
deriving DecidableEq

/-- Environment: the outcome of every fallible external call.  `gotoResult i`
is the result of the `page.goto` call on loop iteration `i` (`none` = success,
`some e` = raises `e`); the remaining fields are the results of the single
later calls, and `controlsVisible` is the Boolean returned by
`locator('div[aria-label="Video controls"]').is_visible()`. -/
structure Env where
  gotoResult : Nat → Option ExcKind
  fillResult : Option ExcKind
  clickResult : Option ExcKind
  waitVideoResult : Option ExcKind
  controlsVisible : Bool
  screenshotResult : Option ExcKind

/-- `"http://localhost:3000"`, the hard-coded target (line 13). -/
def homeUrl : String := "http://localhost:3000"

/-- The hard-coded test video URL (line 23). -/
def testVideoUrl : String := "https://media.w3.org/2010/05/sintel/trailer.mp4"

/-- Selector of the URL input field (line 24). -/
def urlInputSelector : String := "input[type=\"url\"]"

/-- Selector of the start button (line 28). -/
def startButtonSelector : String := "button:has-text(\"Start Streaming\")"

/-- Selector awaited for the video element (line 32). -/
def videoSelector : String := "video"

/-- Selector of the controls container (line 48). -/
def controlsSelector : String := "div[aria-label=\"Video controls\"]"

/-- The fixed relative screenshot path (line 56). -/
def screenshotPath : String := "verification_controls.png"

/-- The events of one failed `page.goto` attempt at loop index `i`:
the `goto` call itself, the `print(f"Waiting for server... ({i})")`, and the
`time.sleep(2)` of the `except` block (lines 13-17). -/
def failBlock (i : Nat) : List Event :=
  [Event.goto homeUrl 5000,
   Event.print ("Waiting for server... (" ++ toString i ++ ")"),
   Event.sleep 2]

/-- `n` consecutive failed attempts starting at loop index `i`. -/
def failTrace : Nat → Nat → List Event
  | 0, _ => []
  | n + 1, i => failBlock i ++ failTrace n (i + 1)

/-- The retry loop of lines 11-17: `for i in range(30): try: page.goto(...);
break; except: print(...); time.sleep(2)`.  `n` is the number of remaining
iterations and `i` the current loop index; the Boolean result is `true` iff
the loop exited via `break` (so `false` triggers the `for`-`else` raise).
The script enters it as `gotoLoop env 30 0`. -/
def gotoLoop (env : Env) : Nat → Nat → List Event × Bool
  | 0, _ => ([], false)
  | n + 1, i =>
    if (env.gotoResult i).isSome then
      let r := gotoLoop env n (i + 1)
      (failBlock i ++ r.1, r.2)
    else
      ([Event.goto homeUrl 5000], true)

/-- Events emitted before the retry loop: `launch(headless=True)`,
`new_context(viewport=1280x720)`, `new_page()`, and the first print
(lines 5-9). -/
def preTrace : List Event :=
  [Event.launch true, Event.newContext 1280 720, Event.newPage,
   Event.print "Navigating to home page..."]

/-- The straight-line code after the retry loop succeeds (lines 21-58):
fill, click, wait for the video selector, two sleeps, mouse moves, the
visibility check with its two diagnostic prints, the screenshot, and
`browser.close()`.  Each fallible call aborts the run with `Outcome.uncaught`
when the environment says it raises; there is no handler. -/
def restRun (env : Env) : List Event × Outcome :=
  let t1 := [Event.print "Filling URL...", Event.fill urlInputSelector testVideoUrl]
  match env.fillResult with
  | some e => (t1, Outcome.uncaught e)
  | none =>
    let t2 := t1 ++ [Event.print "Starting stream...", Event.click startButtonSelector]
    match env.clickResult with
    | some e => (t2, Outcome.uncaught e)
    | none =>
      let t3 := t2 ++ [Event.print "Waiting for video...",
        Event.waitForSelector videoSelector 10000]
      match env.waitVideoResult with
      | some e => (t3, Outcome.uncaught e)
      | none =>
        let t4 := t3 ++ [Event.sleep 2, Event.print "Hovering to show controls...",
          Event.mouseMove 640 360, Event.mouseMove 650 370, Event.sleep 1,
          Event.isVisible controlsSelector,
          Event.print (if env.controlsVisible then "Controls are visible!"
                       else "Controls NOT visible!"),
          Event.print "Taking screenshot...", Event.screenshot screenshotPath]
        match env.screenshotResult with
        | some e => (t4, Outcome.uncaught e)
        | none => (t4 ++ [Event.close], Outcome.normal)

/-- The whole `run(playwright)` function (lines 4-58): setup, retry loop with
its `for`-`else` `raise Exception("Server failed to start")`, then the
straight-line remainder. -/
def run (env : Env) : List Event × Outcome :=
  let loop := gotoLoop env 30 0
  if loop.2 then
    let r := restRun env
    (preTrace ++ loop.1 ++ r.1, r.2)
  else
    (preTrace ++ loop.1, Outcome.raised "Server failed to start")

/-- Is this event a `page.goto` call? -/
def isGoto : Event → Bool
  | Event.goto _ _ => true
  | _ => false

/-- Is this event a `time.sleep(2)` call? -/
def isSleep2 : Event → Bool
  | Event.sleep s => s == 2
  | _ => false

/-- Is this event a `page.screenshot` call? -/
def isScreenshot : Event → Bool
  | Event.screenshot _ => true
  | _ => false

/-- Events that can occur inside the retry loop: goto, print, sleep. -/
def isLoopEvent : Event → Bool
  | Event.goto _ _ => true
  | Event.print _ => true
  | Event.sleep _ => true
  | _ => false

/-- Number of `page.goto` calls in a trace. -/
def countGoto (tr : List Event) : Nat := tr.countP isGoto

/-- Number of `time.sleep(2)` calls in a trace. -/
def countSleep2 (tr : List Event) : Nat := tr.countP isSleep2

/-- Number of `page.screenshot` calls in a trace. -/
def countScreenshot (tr : List Event) : Nat := tr.countP isScreenshot

/-- Upper bound, in milliseconds, on the wall-clock duration attributable to an
event in the model: a `goto` blocks at most its timeout, a sleep blocks exactly
its duration, a selector wait blocks at most its timeout; all other calls are
modelled as instantaneous. -/
def eventTime : Event → Nat
  | Event.goto _ t => t
  | Event.sleep s => s * 1000
  | Event.waitForSelector _ t => t
  | _ => 0

/-- Total modelled time bound of a trace, in milliseconds. -/
def traceTime (tr : List Event) : Nat := (tr.map eventTime).sum

/-- Do the arguments of this event equal the hard-coded literals of the
script?  `print` carries no automation argument and is unconstrained. -/
def opArgsFixed : Event → Bool
  | Event.launch h => h == true
  | Event.newContext w h => w == 1280 && h == 720
  | Event.newPage => true
  | Event.print _ => true
  | Event.goto u t => u == homeUrl && t == 5000
  | Event.sleep s => s == 2 || s == 1
  | Event.fill s u => s == urlInputSelector && u == testVideoUrl
  | Event.click s => s == startButtonSelector
  | Event.waitForSelector s t => s == videoSelector && t == 10000
  | Event.mouseMove x y => (x == 640 && y == 360) || (x == 650 && y == 370)
  | Event.isVisible s => s == controlsSelector
  | Event.screenshot p => p == screenshotPath
  | Event.close => true

/-- Environment in which every `page.goto` attempt raises (server never up)
and every later call would succeed. -/
def envAllFail : Env :=
  { gotoResult := fun _ => some ExcKind.connectionRefused,
    fillResult := none, clickResult := none, waitVideoResult := none,
    controlsVisible := true, screenshotResult := none }

/-- Environment in which every external call succeeds and the controls are
reported visible. -/
def envHappy : Env :=
  { gotoResult := fun _ => none,
    fillResult := none, clickResult := none, waitVideoResult := none,
    controlsVisible := true, screenshotResult := none }

/-- Environment whose first two `goto` attempts raise a navigation timeout and
whose third succeeds; all later calls succeed. -/
def envSucc2 : Env :=
  { gotoResult := fun i => if i < 2 then some ExcKind.timeout else none,
    fillResult := none, clickResult := none, waitVideoResult := none,
    controlsVisible := true, screenshotResult := none }

/-- Environment whose first goto attempt raises a navigation timeout and
whose later attempts succeed; all other calls succeed. -/
def envTimeoutFirst : Env :=
  { gotoResult := fun i => if i = 0 then some ExcKind.timeout else none,
    fillResult := none, clickResult := none, waitVideoResult := none,
    controlsVisible := true, screenshotResult := none }

/-- Same goto failure pattern as `envTimeoutFirst`, but the first attempt
raises a connection refusal instead. -/
def envRefusedFirst : Env :=
  { gotoResult := fun i => if i = 0 then some ExcKind.connectionRefused else none,
    fillResult := none, clickResult := none, waitVideoResult := none,
    controlsVisible := true, screenshotResult := none }

/-- Environment where the server comes up at once but `page.fill` raises. -/
def envFillFail : Env :=
  { gotoResult := fun _ => none,
    fillResult := some (ExcKind.other "fill failed"),
    clickResult := none, waitVideoResult := none,
    controlsVisible := true, screenshotResult := none }

/-! ## Helper lemmas about the retry loop -/

theorem gotoLoop_fail (env : Env) :
    ∀ n i, (∀ j, j < n → (env.gotoResult (i + j)).isSome = true) →
    gotoLoop env n i = (failTrace n i, false) := by
  intro n
  induction n with
  | zero => intro i _; rfl
  | succ n ih =>
    intro i h
    have h0 : (env.gotoResult i).isSome = true := by
      have := h 0 (Nat.succ_pos n); simpa using this
    have hrest : ∀ j, j < n → (env.gotoResult (i + 1 + j)).isSome = true := by
      intro j hj
      have hidx : i + 1 + j = i + (j + 1) := by omega
      rw [hidx]
      exact h (j + 1) (by omega)
    simp [gotoLoop, h0, ih (i + 1) hrest, failTrace]

theorem gotoLoop_succ (env : Env) :
    ∀ k n i, k < n → (env.gotoResult (i + k)).isSome = false →
    (∀ j, j < k → (env.gotoResult (i + j)).isSome = true) →
    gotoLoop env n i = (failTrace k i ++ [Event.goto homeUrl 5000], true) := by
  intro k
  induction k with
  | zero =>
    intro n i hn hs _
    match n, hn with
    | n + 1, _ =>
      have h0 : (env.gotoResult i).isSome = false := by simpa using hs
      simp [gotoLoop, h0, failTrace]
  | succ k ih =>
    intro n i hn hs hf
    match n, hn with
    | n + 1, hn =>
      have h0 : (env.gotoResult i).isSome = true := by
        have := hf 0 (Nat.succ_pos k); simpa using this
      have hs' : (env.gotoResult (i + 1 + k)).isSome = false := by
        have hidx : i + 1 + k = i + (k + 1) := by omega
        rw [hidx]; exact hs
      have hf' : ∀ j, j < k → (env.gotoResult (i + 1 + j)).isSome = true := by
        intro j hj
        have hidx : i + 1 + j = i + (j + 1) := by omega
        rw [hidx]; exact hf (j + 1) (by omega)
      have hrec := ih n (i + 1) (by omega) hs' hf'
      simp [gotoLoop, h0, hrec, failTrace]

theorem gotoLoop_ok_iff (env : Env) :
    ∀ n i, (gotoLoop env n i).2 = true ↔
      ∃ j, j < n ∧ (env.gotoResult (i + j)).isSome = false := by
  intro n
  induction n with
  | zero => intro i; simp [gotoLoop]
  | succ n ih =>
    intro i
    by_cases h0 : (env.gotoResult i).isSome = true
    · rw [show gotoLoop env (n + 1) i
          = (failBlock i ++ (gotoLoop env n (i + 1)).1, (gotoLoop env n (i + 1)).2) by
        simp [gotoLoop, h0]]
      rw [ih (i + 1)]
      constructor
      · rintro ⟨j, hj, hjf⟩
        refine ⟨j + 1, by omega, ?_⟩
        have hidx : i + (j + 1) = i + 1 + j := by omega
        rw [hidx]; exact hjf
      · rintro ⟨j, hj, hjf⟩
        match j with
        | 0 =>
          rw [Nat.add_zero] at hjf
          rw [h0] at hjf
          exact absurd hjf (by simp)
        | j + 1 =>
          refine ⟨j, by omega, ?_⟩
          have hidx : i + 1 + j = i + (j + 1) := by omega
          rw [hidx]; exact hjf
    · have h0' : (env.gotoResult i).isSome = false := by
        cases hx : (env.gotoResult i).isSome
        · rfl
        · exact absurd hx h0
      simp [gotoLoop, h0']
      exact ⟨0, by omega, by simpa using h0'⟩

theorem gotoLoop_ext (env env' : Env)
    (h : ∀ j, (env.gotoResult j).isSome = (env'.gotoResult j).isSome) :
    ∀ n i, gotoLoop env n i = gotoLoop env' n i := by
  intro n
  induction n with
  | zero => intro i; rfl
  | succ n ih =>
    intro i
    by_cases h0 : (env.gotoResult i).isSome = true
    · have h0' : (env'.gotoResult i).isSome = true := by rw [← h i]; exact h0
      simp [gotoLoop, h0, h0', ih (i + 1)]
    · have h0' : ¬ (env'.gotoResult i).isSome = true := by rw [← h i]; exact h0
      simp [gotoLoop, h0, h0']

theorem failBlock_loopEvents (i : Nat) : ∀ ev ∈ failBlock i, isLoopEvent ev = true := by
  intro ev hev
  simp [failBlock] at hev
  rcases hev with h | h | h <;> subst h <;> rfl

theorem failTrace_loopEvents : ∀ n i, ∀ ev ∈ failTrace n i, isLoopEvent ev = true := by
  intro n
  induction n with
  | zero => intro i ev hev; simp [failTrace] at hev
  | succ n ih =>
    intro i ev hev
    rw [failTrace, List.mem_append] at hev
    rcases hev with h | h
    · exact failBlock_loopEvents i ev h
    · exact ih (i + 1) ev h

theorem gotoLoop_loopEvents (env : Env) :
    ∀ n i, ∀ ev ∈ (gotoLoop env n i).1, isLoopEvent ev = true := by
  intro n
  induction n with
  | zero => intro i ev hev; simp [gotoLoop] at hev
  | succ n ih =>
    intro i ev hev
    by_cases h0 : (env.gotoResult i).isSome = true
    · rw [show (gotoLoop env (n + 1) i).1 = failBlock i ++ (gotoLoop env n (i + 1)).1 by
        simp [gotoLoop, h0]] at hev
      rw [List.mem_append] at hev
      rcases hev with h | h
      · exact failBlock_loopEvents i ev h
      · exact ih (i + 1) ev h
    · rw [show (gotoLoop env (n + 1) i).1 = [Event.goto homeUrl 5000] by
        simp [gotoLoop, h0]] at hev
      simp at hev
      subst hev; rfl

theorem countGoto_append (a b : List Event) :
    countGoto (a ++ b) = countGoto a + countGoto b := by
  simp [countGoto, List.countP_append]

theorem countGoto_failBlock (i : Nat) : countGoto (failBlock i) = 1 := by
  simp [countGoto, failBlock, List.countP_cons, isGoto]

theorem countGoto_failTrace : ∀ n i, countGoto (failTrace n i) = n := by
  intro n
  induction n with
  | zero => intro i; simp [failTrace, countGoto]
  | succ n ih =>
    intro i
    rw [failTrace, countGoto_append, countGoto_failBlock, ih (i + 1)]
    omega

theorem countGoto_gotoLoop_le (env : Env) :
    ∀ n i, countGoto (gotoLoop env n i).1 ≤ n := by
  intro n
  induction n with
  | zero => intro i; simp [gotoLoop, countGoto]
  | succ n ih =>
    intro i
    by_cases h0 : (env.gotoResult i).isSome = true
    · rw [show (gotoLoop env (n + 1) i).1 = failBlock i ++ (gotoLoop env n (i + 1)).1 by
        simp [gotoLoop, h0]]
      rw [countGoto_append, countGoto_failBlock]
      have := ih (i + 1)
      omega
    · rw [show (gotoLoop env (n + 1) i).1 = [Event.goto homeUrl 5000] by
        simp [gotoLoop, h0]]
      simp [countGoto, List.countP_cons, isGoto]

theorem countSleep2_failTrace : ∀ n i, countSleep2 (failTrace n i) = n := by
  intro n
  induction n with
  | zero => intro i; simp [failTrace, countSleep2]
  | succ n ih =>
    intro i
    rw [failTrace]
    simp [countSleep2, List.countP_append] at ih ⊢
    rw [ih (i + 1)]
    simp [failBlock, List.countP_cons, isSleep2]
    omega

theorem traceTime_append (a b : List Event) :
    traceTime (a ++ b) = traceTime a + traceTime b := by
  simp [traceTime]

theorem traceTime_gotoLoop_le (env : Env) :
    ∀ n i, traceTime (gotoLoop env n i).1 ≤ n * 7000 := by
  intro n
  induction n with
  | zero => intro i; simp [gotoLoop, traceTime]
  | succ n ih =>
    intro i
    by_cases h0 : (env.gotoResult i).isSome = true
    · rw [show (gotoLoop env (n + 1) i).1 = failBlock i ++ (gotoLoop env n (i + 1)).1 by
        simp [gotoLoop, h0]]
      rw [traceTime_append]
      have hb : traceTime (failBlock i) = 7000 := by
        simp [traceTime, failBlock, eventTime]
      have := ih (i + 1)
      omega
    · rw [show (gotoLoop env (n + 1) i).1 = [Event.goto homeUrl 5000] by
        simp [gotoLoop, h0]]
      have : traceTime [Event.goto homeUrl 5000] = 5000 := by
        simp [traceTime, eventTime]
      omega

theorem gotoLoop_opArgsFixed (env : Env) :
    ∀ n i, ∀ ev ∈ (gotoLoop env n i).1, opArgsFixed ev = true := by
  intro n
  induction n with
  | zero => intro i ev hev; simp [gotoLoop] at hev
  | succ n ih =>
    intro i ev hev
    by_cases h0 : (env.gotoResult i).isSome = true
    · rw [show (gotoLoop env (n + 1) i).1 = failBlock i ++ (gotoLoop env n (i + 1)).1 by
        simp [gotoLoop, h0]] at hev
      rw [List.mem_append] at hev
      rcases hev with h | h
      · simp [failBlock] at h
        rcases h with h | h | h <;> subst h <;> rfl
      · exact ih (i + 1) ev h
    · rw [show (gotoLoop env (n + 1) i).1 = [Event.goto homeUrl 5000] by
        simp [gotoLoop, h0]] at hev
      simp at hev
      subst hev; rfl

/-! ## Helper lemmas about the straight-line remainder -/

theorem restRun_ne_raised (env : Env) (msg : String) :
    (restRun env).2 ≠ Outcome.raised msg := by
  rcases hf : env.fillResult with _ | e1
  all_goals rcases hc : env.clickResult with _ | e2
  all_goals rcases hw : env.waitVideoResult with _ | e3
  all_goals rcases hs : env.screenshotResult with _ | e4
  all_goals simp [restRun, hf, hc, hw, hs]

theorem restRun_fill_mem (env : Env) :
    Event.fill urlInputSelector testVideoUrl ∈ (restRun env).1 := by
  rcases hf : env.fillResult with _ | e1
  all_goals rcases hc : env.clickResult with _ | e2
  all_goals rcases hw : env.waitVideoResult with _ | e3
  all_goals rcases hs : env.screenshotResult with _ | e4
  all_goals simp [restRun, hf, hc, hw, hs]

theorem restRun_close_iff (env : Env) :
    Event.close ∈ (restRun env).1 ↔ (restRun env).2 = Outcome.normal := by
  rcases hf : env.fillResult with _ | e1
  all_goals rcases hc : env.clickResult with _ | e2
  all_goals rcases hw : env.waitVideoResult with _ | e3
  all_goals rcases hs : env.screenshotResult with _ | e4
  all_goals simp [restRun, hf, hc, hw, hs]

theorem restRun_countGoto (env : Env) : countGoto (restRun env).1 = 0 := by
  rcases hf : env.fillResult with _ | e1
  all_goals rcases hc : env.clickResult with _ | e2
  all_goals rcases hw : env.waitVideoResult with _ | e3
  all_goals rcases hs : env.screenshotResult with _ | e4
  all_goals simp [restRun, hf, hc, hw, hs, countGoto, List.countP_cons, List.countP_append,
    isGoto]

theorem restRun_traceTime_le (env : Env) : traceTime (restRun env).1 ≤ 13000 := by
  rcases hf : env.fillResult with _ | e1
  all_goals rcases hc : env.clickResult with _ | e2
  all_goals rcases hw : env.waitVideoResult with _ | e3
  all_goals rcases hs : env.screenshotResult with _ | e4
  all_goals simp [restRun, hf, hc, hw, hs, traceTime, eventTime]

theorem restRun_opArgsFixed (env : Env) :
    ∀ ev ∈ (restRun env).1, opArgsFixed ev = true := by
  intro ev hev
  rcases hf : env.fillResult with _ | e1
  all_goals rcases hc : env.clickResult with _ | e2
  all_goals rcases hw : env.waitVideoResult with _ | e3
  all_goals rcases hs : env.screenshotResult with _ | e4
  all_goals simp only [restRun, hf, hc, hw, hs, List.append_assoc, List.cons_append,
    List.nil_append] at hev
  all_goals fin_cases hev <;> rfl

/-! ## Helper lemmas about `run` -/

theorem run_of_ok (env : Env) (h : (gotoLoop env 30 0).2 = true) :
    run env = (preTrace ++ (gotoLoop env 30 0).1 ++ (restRun env).1, (restRun env).2) := by
  simp [run, h]

theorem run_of_fail (env : Env) (h : (gotoLoop env 30 0).2 = false) :
    run env = (preTrace ++ (gotoLoop env 30 0).1, Outcome.raised "Server failed to start") := by
  simp [run, h]

theorem all_fail_of_not_ok (env : Env) (h : (gotoLoop env 30 0).2 = false) :
    ∀ j, j < 30 → (env.gotoResult j).isSome = true := by
  intro j hj
  cases hx : (env.gotoResult j).isSome
  · exfalso
    have hok : (gotoLoop env 30 0).2 = true :=
      (gotoLoop_ok_iff env 30 0).mpr ⟨j, hj, by simpa using hx⟩
    rw [h] at hok
    exact absurd hok (by simp)
  · rfl

theorem ok_of_some_success (env : Env) (k : Nat) (hk : k < 30)
    (hs : (env.gotoResult k).isSome = false) : (gotoLoop env 30 0).2 = true :=
  (gotoLoop_ok_iff env 30 0).mpr ⟨k, hk, by simpa using hs⟩

theorem countSleep2_append (a b : List Event) :
    countSleep2 (a ++ b) = countSleep2 a + countSleep2 b := by
  simp [countSleep2, List.countP_append]

theorem countSleep2_failBlock (i : Nat) : countSleep2 (failBlock i) = 1 := by
  simp [countSleep2, failBlock, List.countP_cons, isSleep2]

theorem gotoLoop_count_eq (env : Env) :
    ∀ n i, countGoto (gotoLoop env n i).1 =
      countSleep2 (gotoLoop env n i).1 + (if (gotoLoop env n i).2 then 1 else 0) := by
  intro n
  induction n with
  | zero => intro i; simp [gotoLoop, countGoto, countSleep2]
  | succ n ih =>
    intro i
    by_cases h0 : (env.gotoResult i).isSome = true
    · have hsplit1 : (gotoLoop env (n + 1) i).1 = failBlock i ++ (gotoLoop env n (i + 1)).1 := by
        simp [gotoLoop, h0]
      have hsplit2 : (gotoLoop env (n + 1) i).2 = (gotoLoop env n (i + 1)).2 := by
        simp [gotoLoop, h0]
      rw [hsplit1, hsplit2, countGoto_append, countGoto_failBlock, countSleep2_append,
        countSleep2_failBlock]
      have hih := ih (i + 1)
      cases hb : (gotoLoop env n (i + 1)).2 <;> simp [hb] at hih ⊢ <;> omega
    · simp [gotoLoop, h0, countGoto, countSleep2, List.countP_cons, isGoto, isSleep2]

theorem restRun_success (env : Env) (hf : env.fillResult = none)
    (hc : env.clickResult = none) (hw : env.waitVideoResult = none)
    (hs : env.screenshotResult = none) :
    restRun env =
      ([Event.print "Filling URL...", Event.fill urlInputSelector testVideoUrl,
        Event.print "Starting stream...", Event.click startButtonSelector,
        Event.print "Waiting for video...", Event.waitForSelector videoSelector 10000,
        Event.sleep 2, Event.print "Hovering to show controls...",
        Event.mouseMove 640 360, Event.mouseMove 650 370, Event.sleep 1,
        Event.isVisible controlsSelector,
        Event.print (if env.controlsVisible then "Controls are visible!"
                     else "Controls NOT visible!"),
        Event.print "Taking screenshot...", Event.screenshot screenshotPath,
        Event.close], Outcome.normal) := by
  simp [restRun, hf, hc, hw, hs]

theorem restRun_getLast_iff (env : Env) :
    ((restRun env).1.getLast? = some Event.close ↔ (restRun env).2 = Outcome.normal) ∧
    (restRun env).1 ≠ [] := by
  rcases hf : env.fillResult with _ | e1
  all_goals rcases hc : env.clickResult with _ | e2
  all_goals rcases hw : env.waitVideoResult with _ | e3
  all_goals rcases hs : env.screenshotResult with _ | e4
  all_goals simp [restRun, hf, hc, hw, hs]

theorem countScreenshot_gotoLoop (env : Env) (n i : Nat) :
    countScreenshot (gotoLoop env n i).1 = 0 := by
  rw [countScreenshot, List.countP_eq_zero]
  intro a ha
  have hle := gotoLoop_loopEvents env n i a ha
  cases a <;> simp [isLoopEvent, isScreenshot] at hle ⊢

/-! ## Claims C1, C2, C9, C10: the retry loop and its failure path -/

/-- Claim C1: the generic "Server failed to start" exception is raised iff
every one of the 30 `page.goto` attempts of the retry loop fails; when it is
raised, the run has performed no form interaction (the fill call is not in the
trace); and when any attempt succeeds, no such exception is raised and
execution proceeds to invoke the fill of the URL field. -/
theorem C1_failure_iff_all_attempts_fail (env : Env) :
    ((run env).2 = Outcome.raised "Server failed to start" ↔
      ∀ j, j < 30 → (env.gotoResult j).isSome = true) ∧
    ((run env).2 = Outcome.raised "Server failed to start" →
      Event.fill urlInputSelector testVideoUrl ∉ (run env).1) ∧
    ((∃ k, k < 30 ∧ (env.gotoResult k).isSome = false) →
      Event.fill urlInputSelector testVideoUrl ∈ (run env).1 ∧
      (run env).2 ≠ Outcome.raised "Server failed to start") := by
  cases hok : (gotoLoop env 30 0).2
  · have hall := all_fail_of_not_ok env hok
    have hrun := run_of_fail env hok
    have htr : (run env).1 = preTrace ++ (gotoLoop env 30 0).1 := by rw [hrun]
    have hout : (run env).2 = Outcome.raised "Server failed to start" := by rw [hrun]
    refine ⟨iff_of_true hout hall, ?_, ?_⟩
    · intro _
      rw [htr]
      intro hmem
      rcases List.mem_append.mp hmem with h | h
      · simp [preTrace] at h
      · have hle := gotoLoop_loopEvents env 30 0 _ h
        simp [isLoopEvent] at hle
    · rintro ⟨k, hk, hs⟩
      have := ok_of_some_success env k hk hs
      rw [hok] at this
      exact absurd this (by simp)
  · have hrun := run_of_ok env hok
    have htr : (run env).1 = preTrace ++ (gotoLoop env 30 0).1 ++ (restRun env).1 := by
      rw [hrun]
    have hout : (run env).2 = (restRun env).2 := by rw [hrun]
    refine ⟨?_, ?_, ?_⟩
    · constructor
      · intro h
        rw [hout] at h
        exact absurd h (restRun_ne_raised env _)
      · intro hall
        rcases (gotoLoop_ok_iff env 30 0).mp hok with ⟨j, hj, hjf⟩
        rw [Nat.zero_add] at hjf
        rw [hall j hj] at hjf
        exact absurd hjf (by simp)
    · intro h
      rw [hout] at h
      exact absurd h (restRun_ne_raised env _)
    · intro _
      refine ⟨?_, ?_⟩
      · rw [htr]
        exact List.mem_append.mpr (Or.inr (restRun_fill_mem env))
      · rw [hout]
        exact restRun_ne_raised env _

/-- Witness for C1 at a concrete environment whose first goto attempt
succeeds: the fill call happens and the failure exception is not raised. -/
theorem C1_witness :
    Event.fill urlInputSelector testVideoUrl ∈ (run envHappy).1 ∧
    (run envHappy).2 ≠ Outcome.raised "Server failed to start" :=
  (C1_failure_iff_all_attempts_fail envHappy).2.2 ⟨0, by decide, by decide⟩

/-- Claim C2: the polling loop makes at most 30 `page.goto` attempts, pairs
every failed attempt with exactly one fixed 2-second sleep (each failed
attempt is a `failBlock`: goto, print, `sleep 2`), and exits on the first
successful attempt: with first success at index `k` the loop trace is the `k`
failure blocks followed by the single successful goto, and when all 30
attempts fail it is exactly the 30 failure blocks. -/
theorem C2_retry_loop_shape (env : Env) :
    countGoto (gotoLoop env 30 0).1 ≤ 30 ∧
    countGoto (gotoLoop env 30 0).1 =
      countSleep2 (gotoLoop env 30 0).1 + (if (gotoLoop env 30 0).2 then 1 else 0) ∧
    ((∀ j, j < 30 → (env.gotoResult j).isSome = true) →
      gotoLoop env 30 0 = (failTrace 30 0, false)) ∧
    (∀ k, k < 30 → (env.gotoResult k).isSome = false →
      (∀ j, j < k → (env.gotoResult j).isSome = true) →
      gotoLoop env 30 0 = (failTrace k 0 ++ [Event.goto homeUrl 5000], true)) := by
  refine ⟨countGoto_gotoLoop_le env 30 0, gotoLoop_count_eq env 30 0, ?_, ?_⟩
  · intro hall
    exact gotoLoop_fail env 30 0 (fun j hj => by simpa using hall j hj)
  · intro k hk hs hf
    exact gotoLoop_succ env k 30 0 hk (by simpa using hs)
      (fun j hj => by simpa using hf j hj)

/-- Witness for C2 at a concrete environment failing twice then succeeding:
the loop trace is two failure blocks then the successful goto. -/
theorem C2_witness :
    gotoLoop envSucc2 30 0 = (failTrace 2 0 ++ [Event.goto homeUrl 5000], true) :=
  (C2_retry_loop_shape envSucc2).2.2.2 2 (by decide) (by decide) (by decide)

/-- Claim C9: the retry loop's behaviour depends only on WHETHER each goto
attempt raises, never on WHICH exception it raises: two environments whose
attempts fail at the same indices (with arbitrarily different exception
kinds, e.g. a navigation timeout vs a connection refusal) drive the loop to
the identical trace and exit flag. -/
theorem C9_retry_ignores_exception_kind (env env' : Env)
    (h : ∀ j, (env.gotoResult j).isSome = (env'.gotoResult j).isSome) :
    gotoLoop env 30 0 = gotoLoop env' 30 0 :=
  gotoLoop_ext env env' h 30 0

/-- Witness for C9: a first-attempt navigation timeout and a first-attempt
connection refusal lead to the identical loop behaviour. -/
theorem C9_witness : gotoLoop envTimeoutFirst 30 0 = gotoLoop envRefusedFirst 30 0 :=
  C9_retry_ignores_exception_kind envTimeoutFirst envRefusedFirst
    (fun j => by by_cases hj : j = 0 <;> simp [envTimeoutFirst, envRefusedFirst, hj])

/-- Claim C10: when all 30 attempts fail, the loop executes the full
2-second sleep after the 30th failed attempt as well (the trace is exactly 30
attempt-plus-sleep blocks — 30 sleeps, ending in a `sleep 2`) and only then
raises "Server failed to start". -/
theorem C10_full_sleep_before_raise (env : Env)
    (h : ∀ j, j < 30 → (env.gotoResult j).isSome = true) :
    (run env).1 = preTrace ++ failTrace 30 0 ∧
    (run env).2 = Outcome.raised "Server failed to start" ∧
    countSleep2 (run env).1 = 30 ∧
    (run env).1.getLast? = some (Event.sleep 2) := by
  have hloop : gotoLoop env 30 0 = (failTrace 30 0, false) :=
    gotoLoop_fail env 30 0 (fun j hj => by simpa using h j hj)
  have hok : (gotoLoop env 30 0).2 = false := by rw [hloop]
  have hrun := run_of_fail env hok
  rw [hloop] at hrun
  have htr : (run env).1 = preTrace ++ failTrace 30 0 := by rw [hrun]
  have hout : (run env).2 = Outcome.raised "Server failed to start" := by rw [hrun]
  refine ⟨htr, hout, ?_, ?_⟩
  · rw [htr, countSleep2_append, countSleep2_failTrace]
    simp [preTrace, countSleep2, List.countP_cons, isSleep2]
  · rw [htr]
    decide

/-- Witness for C10 at the environment where every attempt fails. -/
theorem C10_witness :
    (run envAllFail).1 = preTrace ++ failTrace 30 0 ∧
    (run envAllFail).2 = Outcome.raised "Server failed to start" ∧
    countSleep2 (run envAllFail).1 = 30 ∧
    (run envAllFail).1.getLast? = some (Event.sleep 2) :=
  C10_full_sleep_before_raise envAllFail (by decide)

/-! ## Claims C3, C4, C6: behaviour after the loop succeeds -/

/-- Claim C3: for both outcomes of the controls-visibility check the run does
not fail: whichever Boolean `is_visible` returns, the run only prints the
corresponding diagnostic message, and in either case execution continues to
take the screenshot and to close the browser, terminating normally
(assuming, as the claim does, that the other automation calls succeed). -/
theorem C3_visibility_check_never_fails (env : Env)
    (hgoto : ∃ k, k < 30 ∧ (env.gotoResult k).isSome = false)
    (hf : env.fillResult = none) (hc : env.clickResult = none)
    (hw : env.waitVideoResult = none) (hs : env.screenshotResult = none) :
    ∀ b : Bool,
      (run { env with controlsVisible := b }).2 = Outcome.normal ∧
      Event.print (if b then "Controls are visible!" else "Controls NOT visible!")
        ∈ (run { env with controlsVisible := b }).1 ∧
      Event.screenshot screenshotPath ∈ (run { env with controlsVisible := b }).1 ∧
      Event.close ∈ (run { env with controlsVisible := b }).1 := by
  intro b
  rcases hgoto with ⟨k, hk, hsucc⟩
  have hok : (gotoLoop { env with controlsVisible := b } 30 0).2 = true :=
    ok_of_some_success _ k hk hsucc
  have hrest := restRun_success { env with controlsVisible := b } hf hc hw hs
  have hrun := run_of_ok _ hok
  have htr : (run { env with controlsVisible := b }).1 =
      preTrace ++ (gotoLoop { env with controlsVisible := b } 30 0).1 ++
        (restRun { env with controlsVisible := b }).1 := by rw [hrun]
  have hout : (run { env with controlsVisible := b }).2 =
      (restRun { env with controlsVisible := b }).2 := by rw [hrun]
  refine ⟨?_, ?_, ?_, ?_⟩
  · rw [hout, hrest]
  · rw [htr]
    refine List.mem_append.mpr (Or.inr ?_)
    rw [hrest]
    simp
  · rw [htr]
    refine List.mem_append.mpr (Or.inr ?_)
    rw [hrest]
    simp
  · rw [htr]
    refine List.mem_append.mpr (Or.inr ?_)
    rw [hrest]
    simp

/-- Witness for C3: a concrete fully-succeeding environment, with the
visibility check returning `false`. -/
theorem C3_witness :
    (run { envHappy with controlsVisible := false }).2 = Outcome.normal ∧
    Event.print (if false then "Controls are visible!" else "Controls NOT visible!")
      ∈ (run { envHappy with controlsVisible := false }).1 ∧
    Event.screenshot screenshotPath ∈ (run { envHappy with controlsVisible := false }).1 ∧
    Event.close ∈ (run { envHappy with controlsVisible := false }).1 :=
  C3_visibility_check_never_fails envHappy ⟨0, by decide, by decide⟩ rfl rfl rfl rfl false

/-- Claim C4: on every run that terminates normally the trace contains exactly
one screenshot call, its path is the fixed relative
"verification_controls.png", and it occurs after the visibility check and
immediately before the browser teardown (the trace ends with the screenshot
followed by the close). -/
theorem C4_screenshot_once_on_success (env : Env)
    (h : (run env).2 = Outcome.normal) :
    countScreenshot (run env).1 = 1 ∧
    ∃ A, (run env).1 = A ++ [Event.screenshot screenshotPath, Event.close] ∧
      Event.isVisible controlsSelector ∈ A := by
  cases hok : (gotoLoop env 30 0).2
  · have hrun := run_of_fail env hok
    rw [hrun] at h
    simp at h
  · have hrun := run_of_ok env hok
    have hout : (run env).2 = (restRun env).2 := by rw [hrun]
    have htr : (run env).1 =
        preTrace ++ (gotoLoop env 30 0).1 ++ (restRun env).1 := by rw [hrun]
    rw [hout] at h
    rcases hf : env.fillResult with _ | e1
    all_goals rcases hc : env.clickResult with _ | e2
    all_goals rcases hw : env.waitVideoResult with _ | e3
    all_goals rcases hs : env.screenshotResult with _ | e4
    all_goals (try (rw [restRun] at h; simp [hf, hc, hw, hs] at h))
    have hrest := restRun_success env hf hc hw hs
    constructor
    · rw [htr, countScreenshot, List.countP_append, List.countP_append,
        ← countScreenshot, ← countScreenshot, ← countScreenshot,
        countScreenshot_gotoLoop]
      have hpre : countScreenshot preTrace = 0 := by decide
      have hrr : countScreenshot (restRun env).1 = 1 := by
        rw [hrest]
        simp [countScreenshot, List.countP_cons, isScreenshot]
      omega
    · refine ⟨preTrace ++ (gotoLoop env 30 0).1 ++
        [Event.print "Filling URL...", Event.fill urlInputSelector testVideoUrl,
         Event.print "Starting stream...", Event.click startButtonSelector,
         Event.print "Waiting for video...", Event.waitForSelector videoSelector 10000,
         Event.sleep 2, Event.print "Hovering to show controls...",
         Event.mouseMove 640 360, Event.mouseMove 650 370, Event.sleep 1,
         Event.isVisible controlsSelector,
         Event.print (if env.controlsVisible then "Controls are visible!"
                      else "Controls NOT visible!"),
         Event.print "Taking screenshot..."], ?_, ?_⟩
      · rw [htr, hrest]
        simp
      · simp

/-- Witness for C4 at the fully-succeeding environment. -/
theorem C4_witness :
    countScreenshot (run envHappy).1 = 1 ∧
    ∃ A, (run envHappy).1 = A ++ [Event.screenshot screenshotPath, Event.close] ∧
      Event.isVisible controlsSelector ∈ A :=
  C4_screenshot_once_on_success envHappy (by decide)

/-- Claim C6: once the retry loop has succeeded, a failure of the URL fill,
of the start-button click, or of the wait for the video element propagates as
an uncaught exception out of `run` — the script installs no handler for these
steps, so the outcome is exactly the uncaught library exception. -/
theorem C6_post_loop_failures_propagate (env : Env) (e : ExcKind)
    (hgoto : ∃ k, k < 30 ∧ (env.gotoResult k).isSome = false) :
    (env.fillResult = some e → (run env).2 = Outcome.uncaught e) ∧
    (env.fillResult = none → env.clickResult = some e →
      (run env).2 = Outcome.uncaught e) ∧
    (env.fillResult = none → env.clickResult = none → env.waitVideoResult = some e →
      (run env).2 = Outcome.uncaught e) := by
  rcases hgoto with ⟨k, hk, hsucc⟩
  have hok := ok_of_some_success env k hk hsucc
  have hout : (run env).2 = (restRun env).2 := by rw [run_of_ok env hok]
  rw [hout]
  refine ⟨?_, ?_, ?_⟩
  · intro hf
    simp [restRun, hf]
  · intro hf hc
    simp [restRun, hf, hc]
  · intro hf hc hw
    simp [restRun, hf, hc, hw]

/-- Witness for C6: a concrete environment whose `page.fill` raises. -/
theorem C6_witness :
    (run envFillFail).2 = Outcome.uncaught (ExcKind.other "fill failed") :=
  (C6_post_loop_failures_propagate envFillFail (ExcKind.other "fill failed")
    ⟨0, by decide, by decide⟩).1 rfl

/-! ## Claim C5: browser acquisition and release -/

/-- Claim C5 counterexample: the claim says every execution path of `run`,
including paths that end in an exception, ends with the browser being closed;
but in the environment where the server never comes up the run ends in the
"Server failed to start" exception and its trace contains no close call at
all — the script has no `finally`, so exception paths skip `browser.close()`. -/
theorem C5_counterexample_no_close_on_failure :
    (run envAllFail).2 = Outcome.raised "Server failed to start" ∧
    Event.close ∉ (run envAllFail).1 := by
  exact ⟨by decide, by decide⟩

/-- Claim C5 (amended): the browser is acquired at the start of every run
(the trace begins with the launch call), and it is released at the end of
exactly the runs that terminate normally: the trace ends with — and
contains — the close call iff the outcome is normal; a run that ends in an
exception terminates without closing the browser. -/
theorem C5_close_iff_normal_end (env : Env) :
    (run env).1.head? = some (Event.launch true) ∧
    (Event.close ∈ (run env).1 ↔ (run env).2 = Outcome.normal) ∧
    ((run env).1.getLast? = some Event.close ↔ (run env).2 = Outcome.normal) := by
  cases hok : (gotoLoop env 30 0).2
  · have hall := all_fail_of_not_ok env hok
    have hloop : gotoLoop env 30 0 = (failTrace 30 0, false) :=
      gotoLoop_fail env 30 0 (fun j hj => by simpa using hall j hj)
    have hrun := run_of_fail env hok
    rw [hloop] at hrun
    rw [hrun]
    decide
  · have hrun := run_of_ok env hok
    have htr : (run env).1 =
        preTrace ++ (gotoLoop env 30 0).1 ++ (restRun env).1 := by rw [hrun]
    have hout : (run env).2 = (restRun env).2 := by rw [hrun]
    refine ⟨?_, ?_, ?_⟩
    · rw [htr]
      simp [preTrace]
    · rw [htr, hout]
      constructor
      · intro hmem
        rcases List.mem_append.mp hmem with hmem1 | hr
        · rcases List.mem_append.mp hmem1 with hp | hl
          · simp [preTrace] at hp
          · have hle := gotoLoop_loopEvents env 30 0 _ hl
            simp [isLoopEvent] at hle
        · exact (restRun_close_iff env).mp hr
      · intro hn
        exact List.mem_append.mpr (Or.inr ((restRun_close_iff env).mpr hn))
    · rw [htr, hout]
      have hne := (restRun_getLast_iff env).2
      have hiff := (restRun_getLast_iff env).1
      cases hgl : (restRun env).1.getLast? with
      | none => exact absurd (List.getLast?_eq_none_iff.mp hgl) hne
      | some x =>
        rw [List.append_assoc, List.getLast?_append, List.getLast?_append, hgl]
        rw [hgl] at hiff
        simpa using hiff

/-! ## Claims C7, C8: bounded time budget and hard-coded arguments -/

/-- Claim C7: every run stays within a fixed time budget regardless of any
outcome: the only loop makes at most 30 goto attempts, and summing every
fixed timeout and sleep in the trace (5 s per goto attempt, the 2 s retry
sleeps, the 10 s video wait, the 2 s and 1 s settle sleeps) never exceeds
223 000 ms. -/
theorem C7_bounded_time_budget (env : Env) :
    traceTime (run env).1 ≤ 223000 ∧ countGoto (run env).1 ≤ 30 := by
  have hpre_t : traceTime preTrace = 0 := by decide
  have hpre_g : countGoto preTrace = 0 := by decide
  have hloop_t := traceTime_gotoLoop_le env 30 0
  have hloop_g := countGoto_gotoLoop_le env 30 0
  cases hok : (gotoLoop env 30 0).2
  · have htr : (run env).1 = preTrace ++ (gotoLoop env 30 0).1 := by
      rw [run_of_fail env hok]
    constructor
    · rw [htr, traceTime_append, hpre_t]
      omega
    · rw [htr, countGoto_append, hpre_g]
      omega
  · have htr : (run env).1 =
        preTrace ++ (gotoLoop env 30 0).1 ++ (restRun env).1 := by
      rw [run_of_ok env hok]
    have hrest_t := restRun_traceTime_le env
    have hrest_g := restRun_countGoto env
    constructor
    · rw [htr, traceTime_append, traceTime_append, hpre_t]
      omega
    · rw [htr, countGoto_append, countGoto_append, hpre_g]
      omega

/-- Claim C8: the script reads no configuration: every operation in every
possible trace carries exactly the hard-coded literal arguments of the source
(target URL and 5 s timeout, test video URL and input selector, button
selector, video selector and 10 s timeout, the viewport, the mouse
coordinates, the sleep durations, the controls selector, the screenshot
path), so any two runs invoke the automation operations with identical
arguments. -/
theorem C8_arguments_hardcoded (env : Env) :
    ∀ ev ∈ (run env).1, opArgsFixed ev = true := by
  intro ev hev
  cases hok : (gotoLoop env 30 0).2
  · have htr : (run env).1 = preTrace ++ (gotoLoop env 30 0).1 := by
      rw [run_of_fail env hok]
    rw [htr] at hev
    rcases List.mem_append.mp hev with h | h
    · simp [preTrace] at h
      rcases h with h | h | h | h <;> subst h <;> rfl
    · exact gotoLoop_opArgsFixed env 30 0 ev h
  · have htr : (run env).1 =
        preTrace ++ (gotoLoop env 30 0).1 ++ (restRun env).1 := by
      rw [run_of_ok env hok]
    rw [htr] at hev
    rcases List.mem_append.mp hev with h | h
    · rcases List.mem_append.mp h with hp | hl
      · simp [preTrace] at hp
        rcases hp with h | h | h | h <;> subst h <;> rfl
      · exact gotoLoop_opArgsFixed env 30 0 ev hl
    · exact restRun_opArgsFixed env ev h

/-- Witness for C8: the goto call of a concrete successful run carries the
hard-coded URL and timeout. -/
theorem C8_witness : opArgsFixed (Event.goto homeUrl 5000) = true :=
  C8_arguments_hardcoded envHappy (Event.goto homeUrl 5000) (by decide)

end VerifyPlayer
